import Mathlib

/-!
Shallow embedding of the pysandra CQL v4 protocol engine
(`src/pysandra/core.py`, `codecs.py`, `messages.py`, `v4protocol.py`),
with theorems settling the frozen claims about the stream registry,
the byte cursor, the value codecs, the message assembly and the
request/response correlation layer.

Machine integers are modelled as `Nat`/`Int` with explicit two's-complement
conversion where the Python code packs or unpacks fixed-width fields.
Fallible code returns `Except DriverError`; methods that mutate object
state are modelled by explicit state passing.
-/

namespace Pysandra

/-- Error taxonomy: the exception classes of `exceptions.py` that the
embedded code can raise, plus a `fuelExhausted` marker used only by the
fuelled embedding of the stream-id scan loop (the Python loop has no
such exit; theorems never rely on it). -/
inductive DriverError where
  | internal
  | maximumStreams
  | badInput
  | typeViolation
  | unknownPayload
  | fuelExhausted
  deriving DecidableEq, Repr

/-! ## Fixed-width big-endian integer packing (`struct` with `!` order) -/

/-- Big-endian bytes of `n`, exactly `width` bytes (`n.to_bytes(width, "big")`
for `n < 256 ^ width`; higher bits are dropped as `n % 256 ^ width`). -/
def natToBytesBE : (width : Nat) → (n : Nat) → List Nat
  | 0, _ => []
  | w + 1, n => (n / 256 ^ w % 256) :: natToBytesBE w n

/-- Two's-complement big-endian bytes of the integer `v`, `width` bytes:
the encoding used by `struct.pack` codes `h`, `l`, `q` for in-range values. -/
def intToBytesBE (width : Nat) (v : Int) : List Nat :=
  natToBytesBE width (v % ((2 : Int) ^ (8 * width))).toNat

/-- Big-endian unsigned value of a byte list:
`int.from_bytes(bs, byteorder="big", signed=False)`. -/
def bytesToNatBE (bs : List Nat) : Nat :=
  bs.foldl (fun acc b => acc * 256 + b) 0

/-- Big-endian signed (two's-complement) value of a byte list:
`int.from_bytes(bs, byteorder="big", signed=True)`. -/
def bytesToIntBE (bs : List Nat) : Int :=
  let n := bytesToNatBE bs
  if n < 2 ^ (8 * bs.length - 1) then (n : Int)
  else (n : Int) - 2 ^ (8 * bs.length)

/-! ## Python slices

`SBytes.grab` returns `self[curindex : curindex + count]`; the cursor and
the count are Python `int`s, so the slice endpoints may be negative and
the full (step-1) slice semantics is embedded. -/

/-- Normalize one endpoint of a Python slice `s[a:b]` over a sequence of
length `len`: negative endpoints count from the end, then both are clamped
into `[0, len]`. -/
def pySliceNorm (len : Nat) (i : Int) : Nat :=
  if i < 0 then (max ((len : Int) + i) 0).toNat else min i.toNat len

/-- Python slice `s[a:b]` (step 1) over a byte list. -/
def pySlice (s : List Nat) (a b : Int) : List Nat :=
  (s.take (pySliceNorm s.length b)).drop (pySliceNorm s.length a)

/-! ## `core.SBytes` — the decoding cursor -/

/-- `core.SBytes`: an immutable byte string plus a read cursor `_index`. -/
structure SBytes where
  data : List Nat
  index : Int
  deriving DecidableEq, Repr

/-- `SBytes.at_end`: `self._index == len(self)`. -/
def SBytes.at_end (s : SBytes) : Bool :=
  s.index = (s.data.length : Int)

/-- `SBytes.remaining`: `self[self._index:]`. -/
def SBytes.remaining (s : SBytes) : List Nat :=
  pySlice s.data s.index (s.data.length : Int)

/-- `SBytes.grab`, primitive form: the result paired with the cursor state
after the call.  The bounds check `self._index + count > len(self)` raises
`InternalDriverError` before the cursor is touched; otherwise the cursor
advances by `count` and the slice `self[curindex : curindex + count]` is
returned. -/
def SBytes.grabP (s : SBytes) (count : Int) : Except DriverError (List Nat) × SBytes :=
  if s.index + count > (s.data.length : Int) then
    (.error .internal, s)
  else
    (.ok (pySlice s.data s.index (s.index + count)),
     { s with index := s.index + count })

/-- `SBytes.grab` in exception-propagating form, used by the decoders. -/
def SBytes.grab (s : SBytes) (count : Int) : Except DriverError (List Nat × SBytes) :=
  match s.grabP count with
  | (.ok bs, s') => .ok (bs, s')
  | (.error e, _) => .error e

/-! ## `codecs.py` — primitive decoders used by the message layer -/

/-- `codecs.decode_short`: 2 bytes, unsigned big-endian (`!H`). -/
def decode_short (s : SBytes) : Except DriverError (Int × SBytes) := do
  let (bs, s') ← s.grab 2
  pure ((bytesToNatBE bs : Int), s')

/-- `codecs.decode_int`: 4 bytes, signed big-endian (`!l`). -/
def decode_int (s : SBytes) : Except DriverError (Int × SBytes) := do
  let (bs, s') ← s.grab 4
  pure (bytesToIntBE bs, s')

/-- `codecs.decode_int_bytes_must`: an `[int]` length followed by that many
bytes; a zero length yields the empty byte string and a negative length
raises `InternalDriverError("unexpected negative length")`. -/
def decode_int_bytes_must (s : SBytes) : Except DriverError (List Nat × SBytes) := do
  let (length, s') ← decode_int s
  if length = 0 then
    pure ([], s')
  else if length < 0 then
    .error .internal
  else
    s'.grab length

/-- `codecs.decode_int_bytes` (the nullable variant used for `[bytes]`
fields elsewhere in the codebase): a negative length yields `none`. -/
def decode_int_bytes (s : SBytes) : Except DriverError (Option (List Nat) × SBytes) := do
  let (length, s') ← decode_int s
  if length = 0 then
    pure (some [], s')
  else if length < 0 then
    pure (none, s')
  else do
    let (bs, s'') ← s'.grab length
    pure (some bs, s'')

/-! ## `core.Streams` — the stream-id registry

The live set `_streams : Dict[int, Optional[T]]` is modelled by its key
list (slots are created with value `None` and filled by `update`; the
claims concern only which ids are live).  The `while True` scan of
`Streams.create` is embedded with fuel; `scanFuel` far exceeds the longest
possible scan (one wrap of the 32769 candidate ids), and no theorem relies
on the `fuelExhausted` exit. -/

/-- `core.Streams`: the last issued id and the keys of the live dict. -/
structure Streams where
  lastStreamId : Option Int
  streams : List Int
  deriving DecidableEq, Repr

/-- The freshly constructed registry: `_last_stream_id = None`, no keys. -/
def Streams.start : Streams := ⟨none, []⟩

/-- `maxstream = 2 ** 15` in `Streams.create`. -/
def maxstream : Int := 2 ^ 15

/-- Fuel bound for the embedded scan loop; more than two full wraps. -/
def scanFuel : Nat := 70000

/-- The scan loop of `Streams.create`: starting from candidate `next_id`,
reset to `0` whenever the candidate exceeds `maxstream`, and stop at the
first candidate that is not a live key. -/
def scanFrom (streams : List Int) : Nat → Int → Option Int
  | 0, _ => none
  | fuel + 1, next =>
    let next := if next > maxstream then 0 else next
    if next ∈ streams then scanFrom streams fuel (next + 1)
    else some next

/-- `core.Streams.create`: fail with `MaximumStreamsException` when more
than `2 ** 15` ids are live; otherwise issue `0` if nothing was ever
issued, else scan forward from `last_id + 1`; record the new id as live
with an empty slot and as the last issued id. -/
def Streams.create (s : Streams) : Except DriverError (Int × Streams) :=
  if (s.streams.length : Int) > maxstream then
    .error .maximumStreams
  else
    match s.lastStreamId with
    | none => .ok (0, ⟨some 0, 0 :: s.streams⟩)
    | some lastId =>
      match scanFrom s.streams scanFuel (lastId + 1) with
      | some nextId => .ok (nextId, ⟨some nextId, nextId :: s.streams⟩)
      | none => .error .fuelExhausted

/-- `core.Streams.remove`: pop the key, `InternalDriverError` when the id
is not live. -/
def Streams.remove (s : Streams) (streamId : Int) : Except DriverError Streams :=
  if streamId ∈ s.streams then .ok ⟨s.lastStreamId, s.streams.erase streamId⟩
  else .error .internal

/-- One registry operation: an allocation or a removal. -/
inductive StreamOp where
  | create
  | remove (streamId : Int)
  deriving DecidableEq, Repr

/-- Apply one operation; a failed operation leaves the registry unchanged
(the Python exception propagates before any mutation). -/
def Streams.applyOp (s : Streams) : StreamOp → Streams
  | .create =>
    match s.create with
    | .ok (_, s') => s'
    | .error _ => s
  | .remove streamId =>
    match s.remove streamId with
    | .ok s' => s'
    | .error _ => s

/-- Run a sequence of allocate/remove operations from the fresh registry. -/
def Streams.runOps (ops : List StreamOp) : Streams :=
  ops.foldl Streams.applyOp Streams.start

/-- Iterate `create` (keeping the new state) `n` times. -/
def Streams.iterCreate : Nat → Streams → Streams
  | 0, s => s
  | n + 1, s => (Streams.iterCreate n s).applyOp .create

/-- The registry state after `n` consecutive allocations from fresh:
ids `n-1, …, 1, 0` live, `n-1` last issued. -/
def Streams.stateN (n : Nat) : Streams :=
  ⟨if n = 0 then none else some ((n : Int) - 1),
   (List.range n).reverse.map (fun (m : Nat) => (m : Int))⟩

/-! ## `messages.ResponseMessage.create` — response factory (C6)

`create` runs the subclass's `build`, then raises `InternalDriverError`
when the body cursor is not at the end (residual bytes) or when `build`
returned `None`.  The subclass decoder is an arbitrary function here, so
the theorem covers every response message type. -/

/-- `messages.ResponseMessage.create`, generic over the subclass `build`
(a body decoder returning an optional message and the advanced cursor). -/
def ResponseMessage.create {M : Type} (buildFn : SBytes → Except DriverError (Option M × SBytes))
    (body : SBytes) : Except DriverError M :=
  match buildFn body with
  | .error e => .error e
  | .ok (msg, body') =>
    if ¬ body'.at_end then .error .internal
    else
      match msg with
      | none => .error .internal
      | some m => .ok m

/-! ## Request assembly (`messages.RequestMessage.__bytes__`) -/

/-- `constants.COMPRESS_MINIMUM`. -/
def COMPRESS_MINIMUM : Nat := 60

/-- `codecs.encode_short` (`!H`). -/
def encode_short (value : Nat) : List Nat := natToBytesBE 2 value

/-- `codecs.encode_string` at the byte level: `[short]` length then the
bytes. -/
def encode_string (value : List Nat) : List Nat :=
  encode_short value.length ++ value

/-- `messages.RequestMessage.encode_header`:
`pack("!BBhBl", version, flags, stream_id, opcode, body_length)`. -/
def encode_header (version flags : Nat) (streamId : Int) (opcode : Nat)
    (bodyLength : Int) : List Nat :=
  natToBytesBE 1 version ++ natToBytesBE 1 flags ++ intToBytesBE 2 streamId ++
    natToBytesBE 1 opcode ++ intToBytesBE 4 bodyLength

/-- `constants.Flags.COMPRESSION`. -/
def Flags.COMPRESSION : Nat := 0x01

/-- `messages.RequestMessage.__bytes__`: if a compression function is
attached and the encoded body has at least `COMPRESS_MINIMUM` bytes, set
the COMPRESSION flag and compress the body; then prepend the header. -/
def RequestMessage.toBytes (version flags : Nat) (streamId : Int) (opcode : Nat)
    (compress : Option (List Nat → List Nat)) (body : List Nat) : List Nat :=
  match compress with
  | some compressFn =>
    if body.length ≥ COMPRESS_MINIMUM then
      encode_header version (flags ||| Flags.COMPRESSION) streamId opcode
        (((compressFn body).length : Int)) ++ compressFn body
    else
      encode_header version flags streamId opcode ((body.length : Int)) ++ body
  | none =>
    encode_header version flags streamId opcode ((body.length : Int)) ++ body

/-- `constants.Opcode.STARTUP`. -/
def Opcode.STARTUP : Nat := 0x01

/-- `constants.Opcode.OPTIONS`. -/
def Opcode.OPTIONS : Nat := 0x05

/-- `constants.Opcode.QUERY`. -/
def Opcode.QUERY : Nat := 0x07

/-- `constants.Opcode.RESULT`. -/
def Opcode.RESULT : Nat := 0x08

/-- `constants.Opcode.PREPARE`. -/
def Opcode.PREPARE : Nat := 0x09

/-- `constants.Opcode.EXECUTE`. -/
def Opcode.EXECUTE : Nat := 0x0A

/-- `constants.Opcode.REGISTER`. -/
def Opcode.REGISTER : Nat := 0x0B

/-- `constants.Opcode.READY`. -/
def Opcode.READY : Nat := 0x02

/-- `constants.Opcode.SUPPORTED`. -/
def Opcode.SUPPORTED : Nat := 0x06

/-- `constants.Opcode.ERROR`. -/
def Opcode.ERROR : Nat := 0x00

/-- `constants.Opcode.EVENT`. -/
def Opcode.EVENT : Nat := 0x0C

/-- `messages.StartupMessage.encode_body`: `pack("!H", len(options))`
followed by each key and value as `[string]`s (keys and values at the
byte level). -/
def StartupMessage.encode_body (options : List (List Nat × List Nat)) : List Nat :=
  options.foldl (fun acc kv => acc ++ encode_string kv.1 ++ encode_string kv.2)
    (natToBytesBE 2 options.length)

/-- A `StartupMessage` serialized: its constructor asserts
`self.compress is None` (and `V4Protocol.startup` passes no compression),
so assembly always runs with no compression function attached. -/
def StartupMessage.toBytes (options : List (List Nat × List Nat))
    (version flags : Nat) (streamId : Int) : List Nat :=
  RequestMessage.toBytes version flags streamId Opcode.STARTUP none
    (StartupMessage.encode_body options)

/-- An `OptionsMessage` serialized: empty body, `compress is None`
asserted by its constructor. -/
def OptionsMessage.toBytes (version flags : Nat) (streamId : Int) : List Nat :=
  RequestMessage.toBytes version flags streamId Opcode.OPTIONS none []

/-! ## Bound-parameter encoding (`messages.QueryMessage.encode_query_parameters`) -/

/-- The `OptionID.TIME` branch of `encode_query_parameters`: an `int`
value is range-checked against `maxvalue = 60 * 60 * 24 * 10 ** 9 - 1`
(`value < 0 or value >= maxvalue` raises `BadInputException`) and packed
as `pack("!lq", 8, value)`. -/
def encode_query_parameter_time (value : Int) : Except DriverError (List Nat) :=
  let maxvalue : Int := 60 * 60 * 24 * 10 ^ 9 - 1
  if value < 0 ∨ value ≥ maxvalue then .error .badInput
  else .ok (intToBytesBE 4 8 ++ intToBytesBE 8 value)

/-- The `OptionID.TIMESTAMP` branch of `encode_query_parameters` at the
milliseconds level: the `datetime` value is converted to
`round(value.timestamp() * 10 ** 3)` (signed milliseconds since the
epoch, negative before 1970) and packed as `pack("!lq", 8, ms)`; this is
the cell payload after the `[int] 8` length prefix. -/
def encode_query_parameter_timestamp (ms : Int) : List Nat :=
  intToBytesBE 4 8 ++ intToBytesBE 8 ms

/-- The cell bytes of a timestamp bound parameter (the `!q` part). -/
def encode_timestamp_cell (ms : Int) : List Nat :=
  intToBytesBE 8 ms

/-- The `OptionID.TIMESTAMP` branch of `ResultMessage.build`'s cell
decoding: `int.from_bytes(value, byteorder="big", signed=False)` — the
milliseconds value is read UNSIGNED (the result is then passed to
`datetime.datetime.utcfromtimestamp(timestamp / 10 ** 3)`). -/
def decode_timestamp_cell (value : List Nat) : Nat :=
  bytesToNatBE value

/-- The `INT/BIGINT/SMALLINT/TIME/TINYINT/VARINT` branch of
`ResultMessage.build`'s cell decoding:
`int.from_bytes(value, byteorder="big", signed=True)`. -/
def decode_int_family_cell (value : List Nat) : Int :=
  bytesToIntBE value

/-! ## Rows decoding (`messages.ResultMessage.build`, kind = Rows) -/

/-- One row of the Rows body in the `col_specs is None` path (e.g. after
`SKIP_METADATA`): `columns_count` cells, each read with
`decode_int_bytes_must`. -/
def parse_row_cells : Nat → SBytes → Except DriverError (List (List Nat) × SBytes)
  | 0, s => .ok ([], s)
  | n + 1, s => do
    let (value, s') ← decode_int_bytes_must s
    let (rest, s'') ← parse_row_cells n s'
    pure (value :: rest, s'')

/-- `rows_count` rows of `columns_count` cells each. -/
def parse_rows_loop : Nat → Nat → SBytes → Except DriverError (List (List (List Nat)) × SBytes)
  | 0, _, s => .ok ([], s)
  | n + 1, columnsCount, s => do
    let (row, s') ← parse_row_cells columnsCount s
    let (rest, s'') ← parse_rows_loop n columnsCount s'
    pure (row :: rest, s'')

/-- The row-parsing tail of `ResultMessage.build` for a Rows result whose
column specs are not materialized: read `[int] rows_count`, then that many
rows of `columns_count` raw `[int length | bytes]` cells (Python's
`range` of a negative count iterates zero times). -/
def ResultMessage.build_rows_raw (columnsCount : Nat) (s : SBytes) :
    Except DriverError (List (List (List Nat)) × SBytes) := do
  let (rowsCount, s') ← decode_int s
  parse_rows_loop rowsCount.toNat columnsCount s'

/-! ## Correlation layer (`v4protocol.V4Protocol.respond`) -/

/-- A column spec from a Prepared result (`decode_col_specs` entry). -/
structure ColSpec where
  ksname : List Nat
  tablename : List Nat
  name : List Nat
  optionId : Nat
  deriving DecidableEq, Repr

/-- The prepared-statement cache `V4Protocol._prepared`: statement id to
the prepared column specs (insertion shadows like dict assignment). -/
def PreparedCache : Type := List (List Nat × List ColSpec)

/-- The decoded response messages the correlation layer can receive. -/
inductive ResponseMsg where
  | ready
  | supported (options : List (List Nat × List (List Nat)))
  | errorResp (code : Nat) (text : List Nat)
  | resultVoid
  | resultRows (rows : List (List (List Nat)))
  | resultSetKeyspace (keyspace : List Nat)
  | resultPrepared (statementId : List Nat) (colSpecs : List ColSpec)
  | resultSchemaChange (changeType target targetName : List Nat)
  | eventResp
  deriving DecidableEq, Repr

/-- The wire opcode of each response message class. -/
def ResponseMsg.opcode : ResponseMsg → Nat
  | .ready => Opcode.READY
  | .supported _ => Opcode.SUPPORTED
  | .errorResp _ _ => Opcode.ERROR
  | .resultVoid => Opcode.RESULT
  | .resultRows _ => Opcode.RESULT
  | .resultSetKeyspace _ => Opcode.RESULT
  | .resultPrepared _ _ => Opcode.RESULT
  | .resultSchemaChange _ _ _ => Opcode.RESULT
  | .eventResp => Opcode.EVENT

/-- The values `V4Protocol.respond` can yield (`types.ExpectedResponses`). -/
inductive ExpectedResponse where
  | boolResp (b : Bool)
  | rowsResp (rows : List (List (List Nat)))
  | keyspaceResp (keyspace : List Nat)
  | schemaChangeResp (changeType target targetName : List Nat)
  | statementIdResp (statementId : List Nat)
  | optionsResp (options : List (List Nat × List (List Nat)))
  | eventQueueResp
  deriving DecidableEq, Repr

/-- `v4protocol.V4Protocol.respond`: dispatch on the request opcode, then
on the response opcode and class; every unmatched pairing falls through to
`InternalDriverError("unhandled response=… for request=…")`.  A Prepared
result for a PREPARE request is stored in `_prepared` (dict assignment
modelled by shadowing cons). -/
def V4Protocol.respond (requestOpcode : Nat) (response : ResponseMsg)
    (prepared : PreparedCache) : Except DriverError (ExpectedResponse × PreparedCache) :=
  if requestOpcode = Opcode.STARTUP then
    if response.opcode = Opcode.READY then .ok (.boolResp true, prepared)
    else .error .internal
  else if requestOpcode = Opcode.QUERY then
    if response.opcode = Opcode.RESULT then
      match response with
      | .resultVoid => .ok (.boolResp true, prepared)
      | .resultRows rows => .ok (.rowsResp rows, prepared)
      | .resultSetKeyspace keyspace => .ok (.keyspaceResp keyspace, prepared)
      | .resultSchemaChange changeType target targetName =>
        .ok (.schemaChangeResp changeType target targetName, prepared)
      | _ => .error .internal
    else .error .internal
  else if requestOpcode = Opcode.OPTIONS then
    if response.opcode = Opcode.SUPPORTED then
      match response with
      | .supported options => .ok (.optionsResp options, prepared)
      | _ => .error .internal
    else .error .internal
  else if requestOpcode = Opcode.REGISTER then
    if response.opcode = Opcode.READY then .ok (.eventQueueResp, prepared)
    else .error .internal
  else if requestOpcode = Opcode.PREPARE then
    if response.opcode = Opcode.RESULT then
      match response with
      | .resultPrepared statementId colSpecs =>
        .ok (.statementIdResp statementId, (statementId, colSpecs) :: prepared)
      | _ => .error .internal
    else .error .internal
  else if requestOpcode = Opcode.EXECUTE then
    if response.opcode = Opcode.RESULT then
      match response with
      | .resultVoid => .ok (.boolResp true, prepared)
      | _ => .error .internal
    else .error .internal
  else .error .internal

/-! ## EXECUTE request building (`v4protocol.V4Protocol.execute`) -/

/-- The fields of `messages.ExecuteMessage` relevant to building the
request from the prepared cache. -/
structure ExecuteMsgModel where
  queryId : List Nat
  colSpecs : List ColSpec
  sendMetadata : Bool
  deriving DecidableEq, Repr

/-- `v4protocol.V4Protocol.execute`: raise `InternalDriverError` when the
statement id has no entry in `_prepared`; otherwise construct the
`ExecuteMessage` from the cached column specs.  The cache is returned
alongside in both branches — the method never writes to it. -/
def V4Protocol.execute (prepared : PreparedCache) (statementId : List Nat)
    (sendMetadata : Bool) : (Except DriverError ExecuteMsgModel) × PreparedCache :=
  match List.lookup statementId prepared with
  | none => (.error .internal, prepared)
  | some colSpecs => (.ok ⟨statementId, colSpecs, sendMetadata⟩, prepared)

/-! ### Registry lemmas -/

/-- The ids live after `n` consecutive allocations are exactly `0 … n-1`. -/
theorem Streams.mem_stateN {n : Nat} {k : Int} :
    k ∈ (Streams.stateN n).streams ↔ 0 ≤ k ∧ k < (n : Int) := by
  simp only [Streams.stateN, List.mem_map, List.mem_reverse, List.mem_range]
  constructor
  · rintro ⟨m, hm, rfl⟩
    exact ⟨Int.natCast_nonneg m, by exact_mod_cast hm⟩
  · rintro ⟨h0, hn⟩
    refine ⟨k.toNat, by omega, by simp [Int.toNat_of_nonneg h0]⟩

/-- Peeling one allocation off the canonical state: the live list. -/
theorem Streams.stateN_succ_streams (n : Nat) :
    (Streams.stateN (n + 1)).streams = ((n : Int)) :: (Streams.stateN n).streams := by
  simp only [Streams.stateN, List.range_succ, List.reverse_append, List.reverse_cons,
    List.reverse_nil, List.nil_append, List.singleton_append, List.map_cons]

/-- Peeling one allocation off the canonical state: the last issued id. -/
theorem Streams.stateN_succ_last (n : Nat) :
    (Streams.stateN (n + 1)).lastStreamId = some ((n : Int)) := by
  simp only [Streams.stateN, Nat.succ_ne_zero, if_false]
  congr 1
  push_cast
  ring

/-- Peeling one allocation off the canonical state. -/
theorem Streams.stateN_succ (n : Nat) :
    Streams.stateN (n + 1) =
      ⟨some ((n : Int)), ((n : Int)) :: (Streams.stateN n).streams⟩ := by
  rw [← Streams.stateN_succ_last n, ← Streams.stateN_succ_streams n]

/-- One unfolding of the scan loop. -/
theorem scanFrom_succ (streams : List Int) (fuel : Nat) (next : Int) :
    scanFrom streams (fuel + 1) next =
      (if (if next > maxstream then 0 else next) ∈ streams then
        scanFrom streams fuel ((if next > maxstream then 0 else next) + 1)
      else some (if next > maxstream then 0 else next)) := rfl

/-- Whatever the scan returns is a valid, currently free id: it lies in
`[0, maxstream]` and is not live. -/
theorem scanFrom_some_props {streams : List Int} :
    ∀ (fuel : Nat) (next id : Int), 0 ≤ next →
      scanFrom streams fuel next = some id →
      0 ≤ id ∧ id ≤ maxstream ∧ id ∉ streams := by
  have hmax : maxstream = 32768 := rfl
  intro fuel
  induction fuel with
  | zero => intro next id _ h; simp [scanFrom] at h
  | succ fuel ih =>
    intro next id hnext h
    rw [scanFrom_succ] at h
    by_cases hmem : (if next > maxstream then 0 else next) ∈ streams
    · rw [if_pos hmem] at h
      refine ih _ _ ?_ h
      split <;> omega
    · rw [if_neg hmem] at h
      injection h with h
      subst h
      refine ⟨by split <;> omega, by split <;> omega, hmem⟩

/-- After `n ≤ 2^15` consecutive allocations the next allocation succeeds
and issues the id `n`: the length guard passes (`n` live ids is not more
than `maxstream`) and the scan accepts the candidate `last + 1 = n`
immediately, since only `0 … n-1` are live. -/
theorem Streams.create_stateN (n : Nat) (hn : n ≤ 32768) :
    (Streams.stateN n).create = .ok ((n : Int), Streams.stateN (n + 1)) := by
  have hmax : maxstream = 32768 := rfl
  have hlen : ((Streams.stateN n).streams.length : Int) = (n : Int) := by
    simp [Streams.stateN]
  have hguard : ¬ ((Streams.stateN n).streams.length : Int) > maxstream := by
    omega
  cases n with
  | zero => rfl
  | succ m =>
    have hcast : ((m : Int) + 1) = ((m + 1 : Nat) : Int) := by push_cast; ring
    have hscan :
        scanFrom (Streams.stateN (m + 1)).streams scanFuel ((m : Int) + 1) =
          some ((m : Int) + 1) := by
      rw [show scanFuel = 69999 + 1 from rfl, scanFrom_succ]
      have hlt : ¬ ((m : Int) + 1 > maxstream) := by omega
      rw [if_neg hlt, if_neg (by rw [Streams.mem_stateN]; omega)]
    simp only [Streams.create]
    rw [if_neg hguard, Streams.stateN_succ_last m]
    change (match scanFrom (Streams.stateN (m + 1)).streams scanFuel ((m : Int) + 1) with
      | some nextId => Except.ok (nextId,
          (⟨some nextId, nextId :: (Streams.stateN (m + 1)).streams⟩ : Streams))
      | none => Except.error DriverError.fuelExhausted) =
      Except.ok (((m + 1 : Nat) : Int), Streams.stateN (m + 1 + 1))
    rw [hscan]
    show Except.ok ((m : Int) + 1, (⟨some ((m : Int) + 1),
        ((m : Int) + 1) :: (Streams.stateN (m + 1)).streams⟩ : Streams)) = _
    rw [Streams.stateN_succ (m + 1), hcast]

/-- After `2^15 + 1` consecutive allocations the registry holds `32769`
live ids, and the next allocation trips the `MaximumStreamsException`
guard. -/
theorem Streams.create_stateN_full :
    (Streams.stateN 32769).create = .error .maximumStreams := by
  have hlen : ((Streams.stateN 32769).streams.length : Int) = 32769 := by
    simp [Streams.stateN]
  simp only [Streams.create]
  rw [if_pos (by rw [hlen]; simp only [maxstream]; omega)]

/-- `n` consecutive allocations from the fresh registry (for `n ≤ 32769`,
i.e. as long as they all succeed) produce the state `stateN n`. -/
theorem Streams.iterCreate_start (n : Nat) (hn : n ≤ 32769) :
    Streams.iterCreate n Streams.start = Streams.stateN n := by
  induction n with
  | zero => rfl
  | succ m ih =>
    have hm : m ≤ 32768 := by omega
    show (Streams.iterCreate m Streams.start).applyOp .create = _
    rw [ih (by omega)]
    simp only [Streams.applyOp, Streams.create_stateN m hm]

/-- Registry well-formedness: the live list has no duplicates (it models
the key set of a dict), every live id and the last issued id are in
`[0, maxstream]`, and before the first allocation nothing is live. -/
def Streams.WF (s : Streams) : Prop :=
  s.streams.Nodup ∧
  (∀ id ∈ s.streams, 0 ≤ id ∧ id ≤ maxstream) ∧
  (s.lastStreamId = none → s.streams = []) ∧
  (∀ l, s.lastStreamId = some l → 0 ≤ l)

/-- The fresh registry is well-formed. -/
theorem Streams.WF_start : Streams.start.WF := by
  refine ⟨List.nodup_nil, ?_, fun _ => rfl, ?_⟩
  · intro id h
    simp [Streams.start] at h
  · intro l h
    exact absurd h (by simp [Streams.start])

/-- A successful allocation on a well-formed registry issues an id in
`[0, maxstream]` that was not live, prepends it to the live list, and
preserves well-formedness. -/
theorem Streams.create_ok_props {s : Streams} (hWF : s.WF) {id : Int} {s' : Streams}
    (h : s.create = .ok (id, s')) :
    0 ≤ id ∧ id ≤ maxstream ∧ id ∉ s.streams ∧
      s'.streams = id :: s.streams ∧ s'.WF := by
  obtain ⟨hnodup, hrange, hnone, hlastr⟩ := hWF
  unfold Streams.create at h
  by_cases hguard : (s.streams.length : Int) > maxstream
  · rw [if_pos hguard] at h
    exact absurd h (by simp)
  · rw [if_neg hguard] at h
    cases hlast : s.lastStreamId with
    | none =>
      rw [hlast] at h
      injection h with h
      rw [Prod.mk.injEq] at h
      obtain ⟨h1, h2⟩ := h
      have hempty : s.streams = [] := hnone hlast
      subst h1
      refine ⟨le_refl 0, by norm_num [maxstream], by simp [hempty], by rw [← h2], ?_⟩
      rw [← h2]
      refine ⟨?_, ?_, by intro hc; exact Option.noConfusion hc, ?_⟩
      · simp [hempty]
      · intro i hi
        rw [hempty] at hi
        rcases List.mem_cons.mp hi with hi | hi
        · subst hi; exact ⟨le_refl 0, by norm_num [maxstream]⟩
        · exact absurd hi (List.not_mem_nil i)
      · intro l hl
        injection hl with hl
        omega
    | some lastId =>
      rw [hlast] at h
      have hlast0 : 0 ≤ lastId := hlastr lastId hlast
      replace h : (match scanFrom s.streams scanFuel (lastId + 1) with
        | some nextId => Except.ok (nextId,
            ({ lastStreamId := some nextId, streams := nextId :: s.streams } : Streams))
        | none => (Except.error DriverError.fuelExhausted :
            Except DriverError (Int × Streams))) = Except.ok (id, s') := h
      cases hscan : scanFrom s.streams scanFuel (lastId + 1) with
      | none => rw [hscan] at h; exact absurd h (by simp)
      | some nextId =>
        rw [hscan] at h
        injection h with h
        rw [Prod.mk.injEq] at h
        obtain ⟨h1, h2⟩ := h
        obtain ⟨hid0, hidmax, hidfree⟩ :=
          scanFrom_some_props scanFuel (lastId + 1) nextId (by omega) hscan
        rw [← h1]
        refine ⟨hid0, hidmax, hidfree, by rw [← h2], ?_⟩
        rw [← h2]
        refine ⟨List.nodup_cons.mpr ⟨hidfree, hnodup⟩, ?_,
          by intro hc; exact Option.noConfusion hc, ?_⟩
        · intro i hi
          rcases List.mem_cons.mp hi with hi | hi
          · subst hi; exact ⟨hid0, hidmax⟩
          · exact hrange i hi
        · intro l hl
          injection hl with hl
          omega

/-- A successful removal erases the id and preserves well-formedness. -/
theorem Streams.WF_remove {s : Streams} (hWF : s.WF) {streamId : Int} {s' : Streams}
    (h : s.remove streamId = .ok s') : s'.WF := by
  obtain ⟨hnodup, hrange, hnone, hlastr⟩ := hWF
  unfold Streams.remove at h
  by_cases hmem : streamId ∈ s.streams
  · rw [if_pos hmem] at h
    injection h with h
    rw [← h]
    refine ⟨hnodup.erase streamId, ?_, ?_, hlastr⟩
    · intro i hi
      exact hrange i (List.mem_of_mem_erase hi)
    · intro hn
      rw [hnone hn] at hmem
      exact absurd hmem (List.not_mem_nil streamId)
  · rw [if_neg hmem] at h
    exact absurd h (by simp)

/-- Applying any operation preserves well-formedness. -/
theorem Streams.WF_applyOp {s : Streams} (hWF : s.WF) (op : StreamOp) :
    (s.applyOp op).WF := by
  cases op with
  | create =>
    show (match s.create with
      | Except.ok (_, s') => s'
      | Except.error _ => s).WF
    cases h : s.create with
    | ok v =>
      obtain ⟨id, s'⟩ := v
      exact (Streams.create_ok_props hWF h).2.2.2.2
    | error e => exact hWF
  | remove streamId =>
    show (match s.remove streamId with
      | Except.ok s' => s'
      | Except.error _ => s).WF
    cases h : s.remove streamId with
    | ok s' => exact Streams.WF_remove hWF h
    | error e => exact hWF

/-- Every registry state reachable by allocate/remove operations from the
fresh registry is well-formed. -/
theorem Streams.WF_runOps (ops : List StreamOp) : (Streams.runOps ops).WF := by
  suffices h : ∀ (l : List StreamOp) (s : Streams), s.WF → (l.foldl Streams.applyOp s).WF by
    exact h ops Streams.start Streams.WF_start
  intro l
  induction l with
  | nil => intro s hs; exact hs
  | cons op l ih =>
    intro s hs
    exact ih (s.applyOp op) (Streams.WF_applyOp hs op)

/-! ## Claims -/

/-- Claim C1 (code bug): `V4Protocol.respond` for an EXECUTE request
handles only the Void result variant.  The same Rows, SetKeyspace and
SchemaChange RESULT responses that yield the rows object, the keyspace
name and the schema-change object for a QUERY request fall through to
`InternalDriverError("unhandled response…")` for an EXECUTE request,
instead of yielding the same outcomes as the spec's correlation table
("EXECUTE → RESULT(…): as QUERY") states. -/
theorem respond_execute_result_internal_error :
    V4Protocol.respond Opcode.EXECUTE (.resultRows [[[51]]]) [] = .error .internal ∧
    V4Protocol.respond Opcode.QUERY (.resultRows [[[51]]]) [] =
      .ok (.rowsResp [[[51]]], []) ∧
    V4Protocol.respond Opcode.EXECUTE (.resultSetKeyspace [107, 115]) [] =
      .error .internal ∧
    V4Protocol.respond Opcode.QUERY (.resultSetKeyspace [107, 115]) [] =
      .ok (.keyspaceResp [107, 115], []) ∧
    V4Protocol.respond Opcode.EXECUTE (.resultSchemaChange [67] [75] [116]) [] =
      .error .internal ∧
    V4Protocol.respond Opcode.QUERY (.resultSchemaChange [67] [75] [116]) [] =
      .ok (.schemaChangeResp [67] [75] [116], []) ∧
    V4Protocol.respond Opcode.EXECUTE .resultVoid [] = .ok (.boolResp true, []) :=
  ⟨rfl, rfl, rfl, rfl, rfl, rfl, rfl⟩

/-- Claim C2 (code bug): a Rows body whose single cell carries the `[int]`
length prefix `-1` — a null cell per the protocol (`[bytes]`: "If n < 0
… the value represented is null", quoted in the source's own docstring)
— makes row decoding raise `InternalDriverError("unexpected negative
length")` through `decode_int_bytes_must`, instead of yielding a row with
a null in that position.  The body here is `rows_count = 1` followed by
one cell of length `-1`. -/
theorem rows_negative_length_internal_error :
    ResultMessage.build_rows_raw 1 ⟨[0, 0, 0, 1, 255, 255, 255, 255], 0⟩ =
      .error .internal ∧
    decode_int ⟨[255, 255, 255, 255], 0⟩ =
      .ok (-1, ⟨[255, 255, 255, 255], 4⟩) ∧
    decode_int_bytes ⟨[255, 255, 255, 255], 0⟩ =
      .ok (none, ⟨[255, 255, 255, 255], 4⟩) :=
  ⟨rfl, rfl, rfl⟩

/-- Claim C3 (code bug): the timestamp bound-parameter encoder packs the
signed 64-bit milliseconds value (`pack("!lq", 8, ms)`, two's
complement), but the Rows cell decoder for `OptionID.TIMESTAMP` reads
the 8 bytes with `signed=False`.  For ms = -1 the encoded cell is
`ff ff ff ff ff ff ff ff`, which decodes to `2^64 - 1`, not `-1`, so the
signed round-trip of negative timestamps fails (the sibling signed read
used by the INT/BIGINT/TIME family would recover `-1`). -/
theorem timestamp_negative_roundtrip_fails :
    encode_timestamp_cell (-1) = [255, 255, 255, 255, 255, 255, 255, 255] ∧
    decode_timestamp_cell (encode_timestamp_cell (-1)) = 18446744073709551615 ∧
    ((18446744073709551615 : Int) ≠ (-1 : Int)) ∧
    decode_int_family_cell (encode_timestamp_cell (-1)) = -1 :=
  ⟨rfl, rfl, by decide, rfl⟩

/-- Claim C4 counterexample: starting from an empty registry, after
`2^15` consecutive allocations the next (2^15 + 1st) allocation does NOT
fail with `TooManyStreams` — it succeeds and issues id `32768` (the
length guard `len > 2**15` and the wrap test `next_id > 2**15` are both
strict, leaving 32769 usable slots). -/
theorem streams_extra_allocation_succeeds :
    (Streams.iterCreate 32768 Streams.start).create =
      .ok (((32768 : Nat) : Int), Streams.stateN 32769) := by
  rw [Streams.iterCreate_start 32768 (by norm_num)]
  exact Streams.create_stateN 32768 (le_refl _)

/-- Claim C4 (amended): starting from an empty stream registry, `2^15 + 1`
consecutive allocations all succeed (the (k+1)-st issues id `k`, up to
and including id `32768`), and only the (2^15 + 2)-nd allocation fails
with `TooManyStreams` (`MaximumStreamsException`). -/
theorem streams_saturation_amended :
    (∀ k : Nat, k ≤ 32768 →
      (Streams.iterCreate k Streams.start).create =
        .ok ((k : Int), Streams.stateN (k + 1))) ∧
    (Streams.iterCreate 32769 Streams.start).create = .error .maximumStreams := by
  constructor
  · intro k hk
    rw [Streams.iterCreate_start k (by omega)]
    exact Streams.create_stateN k hk
  · rw [Streams.iterCreate_start 32769 (le_refl _)]
    exact Streams.create_stateN_full

/-- Witness for the amended C4 theorem at `k = 5`. -/
theorem streams_saturation_amended_witness :
    (Streams.iterCreate 5 Streams.start).create =
      .ok ((((5 : Nat) : Int)), Streams.stateN 6) :=
  streams_saturation_amended.1 5 (by norm_num)

/-- Claim C5 counterexample: the allocation after `2^15` consecutive
allocations issues id `32768`, which lies outside the claimed range
`[0, 32767]`. -/
theorem streams_id_exceeds_15bit_range :
    (Streams.iterCreate 32768 Streams.start).create =
      .ok (((32768 : Nat) : Int), Streams.stateN 32769) ∧
    ¬ (((32768 : Nat) : Int) ≤ 32767) := by
  constructor
  · rw [Streams.iterCreate_start 32768 (by norm_num)]
    exact Streams.create_stateN 32768 (le_refl _)
  · norm_num

/-- Claim C5 (amended): for every sequence of allocate/remove operations
on the stream registry, every stream id issued by a successful allocation
lies in `[0, 32768]` (the inclusive upper bound `2^15` is attainable, so
the claimed `[0, 32767]` is off by one), is never `-1`, and is not live
at the moment it is issued; the live list never holds an id twice. -/
theorem streams_allocation_id_props (ops : List StreamOp) (id : Int) (s' : Streams)
    (h : (Streams.runOps ops).create = .ok (id, s')) :
    0 ≤ id ∧ id ≤ 32768 ∧ id ≠ -1 ∧ id ∉ (Streams.runOps ops).streams ∧
      s'.streams.Nodup := by
  have hWF := Streams.WF_runOps ops
  obtain ⟨h0, hmax, hfree, hcons, hWF'⟩ := Streams.create_ok_props hWF h
  have hm : maxstream = 32768 := rfl
  exact ⟨h0, by omega, by omega, hfree, hWF'.1⟩

/-- Witness for the amended C5 theorem: the empty operation sequence,
whose next allocation issues id `0`. -/
theorem streams_allocation_id_props_witness :
    0 ≤ (0 : Int) ∧ (0 : Int) ≤ 32768 ∧ (0 : Int) ≠ -1 ∧
      (0 : Int) ∉ (Streams.runOps []).streams ∧
      ((⟨some 0, [0]⟩ : Streams)).streams.Nodup :=
  streams_allocation_id_props [] 0 ⟨some 0, [0]⟩ rfl

/-- Claim C6 (confirmed): `ResponseMessage.create` returns a message only
when the subclass decoder consumed the entire body (the cursor is at the
end), and whenever the decoder returns with residual bytes remaining,
`create` raises `InternalDriverError` instead of returning a message —
for every response message type (`buildFn` is arbitrary) and every body. -/
theorem response_create_consumes_body {M : Type}
    (buildFn : SBytes → Except DriverError (Option M × SBytes)) (body : SBytes) :
    (∀ m : M, ResponseMessage.create buildFn body = .ok m →
      ∃ s' : SBytes, buildFn body = .ok (some m, s') ∧ s'.at_end = true) ∧
    (∀ (msg : Option M) (s' : SBytes), buildFn body = .ok (msg, s') →
      s'.at_end = false → ResponseMessage.create buildFn body = .error .internal) := by
  constructor
  · intro m hm
    cases hb : buildFn body with
    | error e =>
      simp [ResponseMessage.create, hb] at hm
    | ok v =>
      obtain ⟨msg, s'⟩ := v
      by_cases hend : s'.at_end = true
      · cases msg with
        | none => simp [ResponseMessage.create, hb, hend] at hm
        | some m' =>
          simp [ResponseMessage.create, hb, hend] at hm
          exact ⟨s', by rw [hm], hend⟩
      · simp [ResponseMessage.create, hb,
          Bool.eq_false_iff.mpr hend] at hm
  · intro msg s' hb hend
    simp [ResponseMessage.create, hb, hend]

/-- Witness for C6: a decoder that succeeds without consuming the
single-byte body makes `create` fail with `InternalDriverError`. -/
theorem response_create_consumes_body_witness :
    ResponseMessage.create
      (fun s => (.ok (some 0, s) : Except DriverError (Option Nat × SBytes)))
      ⟨[1], 0⟩ = .error .internal :=
  (response_create_consumes_body
    (fun s => (.ok (some 0, s) : Except DriverError (Option Nat × SBytes)))
    ⟨[1], 0⟩).2 (some 0) ⟨[1], 0⟩ rfl (by decide)

/-- Claim C7 (confirmed): request serialization compresses the body and
sets the COMPRESSION flag exactly when a compression function is attached
and the encoded body is at least `COMPRESS_MINIMUM = 60` bytes long; a
shorter body — or any body when no compression function is attached — is
sent raw under the original flags, and STARTUP and OPTIONS messages are
always assembled with no compression function attached (their
constructors assert `compress is None`), hence never compressed. -/
theorem request_bytes_compression_flag (version flags : Nat) (streamId : Int)
    (opcode : Nat) (body : List Nat) (compressFn : List Nat → List Nat)
    (hflag : flags % 2 = 0) :
    (body.length ≥ COMPRESS_MINIMUM →
      RequestMessage.toBytes version flags streamId opcode (some compressFn) body =
        encode_header version (flags ||| Flags.COMPRESSION) streamId opcode
          ((compressFn body).length : Int) ++ compressFn body ∧
      (flags ||| Flags.COMPRESSION) % 2 = 1) ∧
    (body.length < COMPRESS_MINIMUM →
      RequestMessage.toBytes version flags streamId opcode (some compressFn) body =
        encode_header version flags streamId opcode (body.length : Int) ++ body) ∧
    (RequestMessage.toBytes version flags streamId opcode none body =
      encode_header version flags streamId opcode (body.length : Int) ++ body) ∧
    (∀ options : List (List Nat × List Nat),
      StartupMessage.toBytes options version flags streamId =
        encode_header version flags streamId Opcode.STARTUP
          ((StartupMessage.encode_body options).length : Int) ++
          StartupMessage.encode_body options) ∧
    (OptionsMessage.toBytes version flags streamId =
      encode_header version flags streamId Opcode.OPTIONS
        (([] : List Nat).length : Int) ++ []) := by
  have hodd : (flags ||| Flags.COMPRESSION) % 2 = 1 := by
    have hbit : (flags ||| Flags.COMPRESSION).testBit 0 = true := by
      rw [Nat.testBit_lor]
      simp [Nat.testBit_zero, hflag, Flags.COMPRESSION]
    rw [Nat.testBit_zero] at hbit
    simpa using hbit
  refine ⟨?_, ?_, rfl, fun options => rfl, rfl⟩
  · intro hge
    exact ⟨by simp only [RequestMessage.toBytes, if_pos hge], hodd⟩
  · intro hlt
    have hnot : ¬ (body.length ≥ COMPRESS_MINIMUM) := by omega
    simp only [RequestMessage.toBytes, if_neg hnot]

/-- Witness for C7 at concrete inputs (flags `0x00`, 2-byte body). -/
theorem request_bytes_compression_flag_witness :
    RequestMessage.toBytes 4 0 1 7 none [1, 2] =
      encode_header 4 0 1 7 (([1, 2] : List Nat).length : Int) ++ [1, 2] :=
  (request_bytes_compression_flag 4 0 1 7 [1, 2] (fun b => b) (by decide)).2.2.1

/-- Claim C8 (code bug): the TIME branch of bound-parameter encoding
computes `maxvalue = 60 * 60 * 24 * 10**9 - 1 = 86_399_999_999_999` —
the largest legal nanoseconds-since-midnight value — but then rejects
`value >= maxvalue`, so the maximum legal value of the claimed domain
`[0, 86_400_000_000_000)` is refused with `BadInput`; one nanosecond
less is accepted, and negatives are rejected as claimed. -/
theorem time_param_rejects_max_value :
    encode_query_parameter_time 86399999999999 = .error .badInput ∧
    encode_query_parameter_time 86399999999998 =
      .ok (intToBytesBE 4 8 ++ intToBytesBE 8 86399999999998) ∧
    encode_query_parameter_time (-1) = .error .badInput :=
  ⟨rfl, rfl, rfl⟩

/-- Claim C9 (confirmed): building an EXECUTE request for a statement id
absent from the prepared-statement cache raises `InternalDriverError`
before any `ExecuteMessage` is constructed, and leaves the cache
unchanged. -/
theorem execute_missing_statement_id (prepared : PreparedCache)
    (statementId : List Nat) (sendMetadata : Bool)
    (h : List.lookup statementId prepared = none) :
    V4Protocol.execute prepared statementId sendMetadata =
      (.error .internal, prepared) := by
  unfold V4Protocol.execute
  rw [h]

/-- Witness for C9: the empty cache knows no statement id. -/
theorem execute_missing_statement_id_witness :
    V4Protocol.execute ([] : PreparedCache) [1] true =
      (.error .internal, ([] : PreparedCache)) :=
  execute_missing_statement_id [] [1] true rfl

/-- Claim C10 counterexample: `grab` called with the negative count `-1`
on the buffer `[5, 6]` at cursor `1` does not raise — it returns zero
bytes (not "exactly count bytes") and moves the cursor backwards to `0`,
so the claim quantified over every count fails. -/
theorem grab_negative_count_counterexample :
    SBytes.grabP ⟨[5, 6], 1⟩ (-1) = (.ok [], ⟨[5, 6], 0⟩) ∧
      ¬ ((([] : List Nat).length : Int) = -1) :=
  ⟨rfl, by decide⟩

/-- Claim C10 (amended to nonnegative counts): for every well-formed
cursor state (`0 ≤ index ≤ length`) and every count `0 ≤ count`,
`grab` either returns exactly `count` bytes starting at the cursor and
advances the cursor by `count` (when `index + count ≤ length`), or
raises `InternalDriverError` leaving the cursor unchanged; it never
reads outside the buffer. -/
theorem grab_nonneg_spec (s : SBytes) (count : Int)
    (hc : 0 ≤ count) (h0 : 0 ≤ s.index) (hlen : s.index ≤ (s.data.length : Int)) :
    (s.index + count ≤ (s.data.length : Int) →
      s.grabP count =
        (.ok ((s.data.take (s.index + count).toNat).drop s.index.toNat),
         ⟨s.data, s.index + count⟩)) ∧
    ((s.data.length : Int) < s.index + count →
      s.grabP count = (.error .internal, s)) ∧
    (∀ (bs : List Nat) (s' : SBytes), s.grabP count = (.ok bs, s') →
      (bs.length : Int) = count ∧ s'.data = s.data ∧ s'.index = s.index + count) := by
  have hslice : pySlice s.data s.index (s.index + count) =
      (s.data.take (s.index + count).toNat).drop s.index.toNat := by
    unfold pySlice pySliceNorm
    rw [if_neg (by omega), if_neg (by omega)]
    by_cases hin : s.index + count ≤ (s.data.length : Int)
    · rw [min_eq_left (by omega), min_eq_left (by omega)]
    · rw [min_eq_left (by omega), min_eq_right (by omega)]
      rw [List.take_length, List.take_of_length_le (by omega)]
  constructor
  · intro hin
    unfold SBytes.grabP
    rw [if_neg (by omega), hslice]
  · constructor
    · intro hout
      unfold SBytes.grabP
      rw [if_pos (by omega)]
    · intro bs s' hok
      unfold SBytes.grabP at hok
      by_cases hin : s.index + count > (s.data.length : Int)
      · rw [if_pos hin] at hok
        exact absurd (congrArg Prod.fst hok) (by simp)
      · rw [if_neg hin] at hok
        rw [Prod.mk.injEq] at hok
        obtain ⟨h1, h2⟩ := hok
        injection h1 with h1
        refine ⟨?_, by rw [← h2], by rw [← h2]⟩
        rw [← h1, hslice]
        rw [List.length_drop, List.length_take, min_eq_left (by omega)]
        omega

/-- Witness for the amended C10 theorem: buffer `[7, 8, 9]`, cursor `1`,
count `2`. -/
theorem grab_nonneg_spec_witness :
    ((1 : Int) + 2 ≤ (([7, 8, 9] : List Nat).length : Int) →
      SBytes.grabP ⟨[7, 8, 9], 1⟩ 2 =
        (.ok ((([7, 8, 9] : List Nat).take ((1 : Int) + 2).toNat).drop (1 : Int).toNat),
         ⟨[7, 8, 9], (1 : Int) + 2⟩)) ∧
    ((([7, 8, 9] : List Nat).length : Int) < (1 : Int) + 2 →
      SBytes.grabP ⟨[7, 8, 9], 1⟩ 2 = (.error .internal, ⟨[7, 8, 9], 1⟩)) ∧
    (∀ (bs : List Nat) (s' : SBytes), SBytes.grabP ⟨[7, 8, 9], 1⟩ 2 = (.ok bs, s') →
      (bs.length : Int) = 2 ∧ s'.data = [7, 8, 9] ∧ s'.index = (1 : Int) + 2) :=
  grab_nonneg_spec ⟨[7, 8, 9], 1⟩ 2 (by decide) (by decide) (by decide)

end Pysandra
